import Mathlib

/-
Shallow embedding of the two webhook relay programs:
  forward_pair_webhook.py  (pairing store + pairing protocol + relay engine)
  forward_bot_webhook.py   (stateless forward-all variant)

The Python pairing store is a dict `_pairs : Dict[str, int]`, always keyed by
`str(chat_id)` for an integer chat id.  Since `str` is injective on integers,
we model the store as an association list keyed directly by `Int`.  Dict
assignment overwrites the binding for a key; `dict.pop(k, None)` removes the
binding if present and returns the old value.  The async/lock/persistence
machinery (`save_pairs`, `_pairs_lock`) does not affect the in-memory mapping
and is abstracted away; file I/O in `load_pairs` is modelled by an explicit
`FileState` describing what the read-plus-parse of the file produced.
-/

/-- In-memory pairing store: bindings from chat id to partner id, most recent
binding first.  Mirrors the Python dict `_pairs` (keys `str(chat_id)`). -/
abbrev Pairs := List (Int × Int)

/-- Dict lookup: value bound to `key`, first binding wins (the store never
holds duplicate keys when built by the operations below). -/
def lookup : Pairs → Int → Option Int
  | [], _ => none
  | (k, v) :: rest, key => if k = key then some v else lookup rest key

/-- Removal of every binding for `key`; models `dict.pop(key, None)`'s effect
on the mapping (a dict has at most one binding per key). -/
def eraseKey : Pairs → Int → Pairs
  | [], _ => []
  | (k, v) :: rest, key =>
      if k = key then eraseKey rest key else (k, v) :: eraseKey rest key

/-- Dict assignment `d[key] = v`: overwrites any existing binding for `key`. -/
def insertKey (s : Pairs) (key v : Int) : Pairs :=
  (key, v) :: eraseKey s key

/-- Python `get_partner(chat_id)`: `_pairs.get(str(chat_id))`. -/
def get_partner (s : Pairs) (chatId : Int) : Option Int :=
  lookup s chatId

/-- Python `set_pair(a, b)`: `_pairs[str(a)] = b` then `_pairs[str(b)] = a`
(then a synchronous save, which does not change the mapping). -/
def set_pair (s : Pairs) (a b : Int) : Pairs :=
  insertKey (insertKey s a b) b a

/-- Python `unlink(a)`: `b = _pairs.pop(str(a), None)`; if `b is not None`
also `_pairs.pop(str(b), None)`; returns `b`.  Result is (returned value,
new store). -/
def unlink (s : Pairs) (a : Int) : Option Int × Pairs :=
  match lookup s a with
  | none => (none, s)
  | some b => (some b, eraseKey (eraseKey s a) b)

theorem lookup_eraseKey (s : Pairs) (k key : Int) :
    lookup (eraseKey s k) key = if key = k then none else lookup s key := by
  induction s with
  | nil => simp [eraseKey, lookup]
  | cons hd tl ih =>
      obtain ⟨hk, hv⟩ := hd
      by_cases h1 : hk = k
      · subst h1
        rw [show eraseKey ((hk, hv) :: tl) hk = eraseKey tl hk from by
          simp [eraseKey]]
        rw [ih]
        by_cases h2 : key = hk
        · simp [h2]
        · have hk2 : ¬ hk = key := fun hh => h2 hh.symm
          simp [lookup, h2, hk2]
      · rw [show eraseKey ((hk, hv) :: tl) k = (hk, hv) :: eraseKey tl k from by
          simp [eraseKey, h1]]
        by_cases h2 : hk = key
        · subst h2
          simp [lookup, h1]
        · simp [lookup, h2, ih]

theorem lookup_insertKey (s : Pairs) (k v key : Int) :
    lookup (insertKey s k v) key = if key = k then some v else lookup s key := by
  unfold insertKey
  by_cases h : key = k
  · subst h
    simp [lookup]
  · have hk : ¬ k = key := fun hh => h hh.symm
    simp [lookup, hk, lookup_eraseKey, h]

theorem get_partner_set_pair (s : Pairs) (a b x : Int) :
    get_partner (set_pair s a b) x =
      if x = b then some a else if x = a then some b else get_partner s x := by
  simp [get_partner, set_pair, lookup_insertKey]

theorem unlink_lookup_none (s : Pairs) (a : Int) (h : lookup s a = none) :
    unlink s a = (none, s) := by
  simp [unlink, h]

theorem get_partner_unlink (s : Pairs) (a b x : Int)
    (h : lookup s a = some b) :
    get_partner (unlink s a).2 x =
      if x = b then none else if x = a then none else get_partner s x := by
  simp only [unlink, h, get_partner, lookup_eraseKey]

/-- Whitespace as stripped by Python `int()` around a numeric literal. -/
def isSpaceChar (c : Char) : Bool :=
  c = ' ' || c = '\t' || c = '\n' || c = '\r'

/-- Accumulating decimal parser: fails on the first non-digit character. -/
def parseDigitsAux : List Char → Nat → Option Nat
  | [], acc => some acc
  | c :: rest, acc =>
      if c.isDigit then parseDigitsAux rest (acc * 10 + (c.toNat - 48))
      else none

/-- Nonempty all-digit string to its decimal value, otherwise `none`. -/
def parseDigits (cs : List Char) : Option Nat :=
  match cs with
  | [] => none
  | _ => parseDigitsAux cs 0

/-- Surrounding-whitespace stripping, as Python `int()` performs. -/
def pyStrip (cs : List Char) : List Char :=
  ((cs.dropWhile isSpaceChar).reverse.dropWhile isSpaceChar).reverse

/-- Python `int(arg)` as used by `link_cmd`: parses an optionally signed
decimal integer after stripping surrounding whitespace, and fails
(`ValueError`, here `none`) on anything else such as `"abc"`.  Python also
accepts underscores between digits, which no claim exercises. -/
def pyToInt (arg : String) : Option Int :=
  match pyStrip arg.data with
  | '+' :: rest => (parseDigits rest).map (fun n => (n : Int))
  | '-' :: rest => (parseDigits rest).map (fun n => -(n : Int))
  | cs => (parseDigits cs).map (fun n => (n : Int))

/-- Outcome of the `/link` command visible to the invoking user: which reply
was sent (and, on success, to whom the caller was linked). -/
inductive LinkResult where
  | askId          -- "Укажи ID: /link 123456789"
  | mustBeNumeric  -- "ID должен быть числом. ..."
  | selfReject     -- "Нельзя связать самого себя"
  | linked (other : Int)  -- confirmation naming the new partner
deriving DecidableEq

/-- Python `link_cmd`: `cid` is the invoking chat id, `args` the command
arguments.  Missing argument, non-numeric argument and `other == cid` each
reply and return before touching the store; otherwise `set_pair(cid, other)`
runs (the best-effort notification after it does not change the store). -/
def link_cmd (cid : Int) (args : List String) (s : Pairs) :
    LinkResult × Pairs :=
  match args with
  | [] => (.askId, s)
  | arg :: _ =>
      match pyToInt arg with
      | none => (.mustBeNumeric, s)
      | some other =>
          if other = cid then (.selfReject, s)
          else (.linked other, set_pair s cid other)

/-- Inbound message as far as `relay_messages` inspects it: the chat type,
the chat id, whether `msg.from_user` exists and its `is_bot` flag, and the
message id to be copied. -/
structure InboundMsg where
  chatType : String
  chatId : Int
  fromUserIsBot : Option Bool
  messageId : Int
deriving DecidableEq

/-- Observable effect of one relay invocation: either nothing is delivered,
or `copy_message(chat_id := dest, from_chat_id := fromChat, message_id)` is
attempted. -/
inductive RelayAction where
  | ignore
  | copyTo (dest fromChat messageId : Int)
deriving DecidableEq

/-- Python `relay_messages`: returns on non-private chats and bot senders;
then `partner = get_partner(chat.id)` and `if not partner: return` — Python
truthiness, so both `None` and `0` abort; otherwise copies the message to
the partner.  Delivery failure handling does not change what is attempted. -/
def relay_messages (s : Pairs) (m : InboundMsg) : RelayAction :=
  if m.chatType ≠ "private" then .ignore
  else if m.fromUserIsBot = some true then .ignore
  else
    match get_partner s m.chatId with
    | none => .ignore
    | some p => if p = 0 then .ignore else .copyTo p m.chatId m.messageId

/-- Configuration of the forward-all variant: the fixed `TARGET_CHAT_ID`
(startup fails fast unless it is set and nonzero) and the optional
`SOURCE_CHAT_ID` restriction. -/
structure FwdConfig where
  target : Int
  source : Option Int
deriving DecidableEq

/-- Python guard `if SOURCE_CHAT_ID and chat.id != SOURCE_CHAT_ID` — again
truthiness: a source restriction of `0` never blocks anything. -/
def sourceBlocks (src : Option Int) (chatId : Int) : Bool :=
  match src with
  | none => false
  | some v => v != 0 && chatId != v

/-- Python `forward_all`: skip if the source restriction blocks the sender,
skip if the sender is the target itself, otherwise copy to the target. -/
def forward_all (cfg : FwdConfig) (chatId messageId : Int) : RelayAction :=
  if sourceBlocks cfg.source chatId then .ignore
  else if chatId = cfg.target then .ignore
  else .copyTo cfg.target chatId messageId

/-- What reading and parsing the persisted pairs file produced: the file is
absent, or opening/`json.load`/`int(v)` raised some exception, or it parsed
into a well-formed chat-id-to-partner mapping. -/
inductive FileState where
  | absent
  | unreadable
  | content (entries : Pairs)
deriving DecidableEq

/-- Python `load_pairs`: absent file yields the empty store; any exception
while reading or parsing is logged and yields the empty store; otherwise the
parsed mapping becomes the store.  Never propagates an error. -/
def load_pairs : FileState → Pairs
  | .absent => []
  | .unreadable => []
  | .content entries => entries

/-- One store-level operation, as the claims quantify over them. -/
inductive Op where
  | set (a b : Int)
  | un (x : Int)

/-- Effect of an operation on the store. -/
def applyOp (s : Pairs) : Op → Pairs
  | .set a b => set_pair s a b
  | .un x => (unlink s x).2

/-- Symmetry of a store state: every recorded pairing is mutual. -/
def SymStore (s : Pairs) : Prop :=
  ∀ a b : Int, get_partner s a = some b → get_partner s b = some a

/-- Precondition under which an operation keeps the store symmetric:
`unlink` always; `set_pair a b` when `a ≠ b` and neither `a` nor `b` is
currently paired with a third party. -/
def SafeOp (s : Pairs) : Op → Prop
  | .set a b => a ≠ b ∧ (∀ c, get_partner s a = some c → c = b) ∧
      (∀ c, get_partner s b = some c → c = a)
  | .un _ => True

/-- States reachable from the empty store by safe operations. -/
inductive ReachableSafe : Pairs → Prop where
  | empty : ReachableSafe []
  | step {s : Pairs} {op : Op} (hs : ReachableSafe s) (hop : SafeOp s op) :
      ReachableSafe (applyOp s op)

theorem symStore_unlink (s : Pairs) (a : Int) (hs : SymStore s) :
    SymStore (unlink s a).2 := by
  cases hcase : lookup s a with
  | none =>
      intro x y hxy
      simp only [unlink, hcase] at hxy ⊢
      exact hs x y hxy
  | some b =>
      intro x y hxy
      rw [get_partner_unlink s a b x hcase] at hxy
      by_cases hxb : x = b
      · simp [hxb] at hxy
      · by_cases hxa : x = a
        · simp [hxb, hxa] at hxy
        · simp only [if_neg hxb, if_neg hxa] at hxy
          have hyx := hs x y hxy
          have hab : get_partner s a = some b := hcase
          have hba : get_partner s b = some a := hs a b hab
          have hyb : y ≠ b := by
            intro h
            subst h
            exact hxa (Option.some.inj (hyx.symm.trans hba))
          have hya : y ≠ a := by
            intro h
            subst h
            exact hxb (Option.some.inj (hyx.symm.trans hab))
          rw [get_partner_unlink s a b y hcase]
          simp [hyb, hya, hyx]

theorem symStore_set_pair (s : Pairs) (a b : Int) (hs : SymStore s)
    (hab : a ≠ b)
    (hpa : ∀ c, get_partner s a = some c → c = b)
    (hpb : ∀ c, get_partner s b = some c → c = a) :
    SymStore (set_pair s a b) := by
  intro x y hxy
  rw [get_partner_set_pair] at hxy
  rw [get_partner_set_pair]
  by_cases hxb : x = b
  · rw [if_pos hxb] at hxy
    have hy : y = a := (Option.some.inj hxy).symm
    subst hy
    simp [hab, hxb]
  · by_cases hxa : x = a
    · rw [if_neg hxb, if_pos hxa] at hxy
      have hy : y = b := (Option.some.inj hxy).symm
      subst hy
      simp [hxa]
    · rw [if_neg hxb, if_neg hxa] at hxy
      have hyx := hs x y hxy
      have hyb : y ≠ b := by
        intro h
        subst h
        exact hxa (hpb x hyx)
      have hya : y ≠ a := by
        intro h
        subst h
        exact hxb (hpa x hyx)
      simp [hyb, hya, hyx]

/-- C1 counterexample: from the empty store, setPair(1,2) then setPair(1,3)
(both with distinct arguments, so reachable under the claim) yields a state
where getPartner(2) = 1 but getPartner(1) = 3 ≠ 2: the symmetry invariant
fails in a caller-visible way. -/
theorem pairing_symmetry_cex :
    (1 : Int) ≠ 2 ∧ (1 : Int) ≠ 3 ∧
    get_partner (applyOp (applyOp ([] : Pairs) (.set 1 2)) (.set 1 3)) 2
      = some 1 ∧
    get_partner (applyOp (applyOp ([] : Pairs) (.set 1 2)) (.set 1 3)) 1
      ≠ some 2 := by
  decide

/-- C1 (amended): every store reachable from the empty store by unlink and
by setPair(a,b) with a ≠ b where neither a nor b is currently paired with a
third participant is symmetric: getPartner(A) = B implies getPartner(B) = A. -/
theorem pairing_symmetry_reachable_safe (s : Pairs) (h : ReachableSafe s) :
    SymStore s := by
  induction h with
  | empty =>
      intro a b hab
      simp [get_partner, lookup] at hab
  | step hs hop ih =>
      rename_i s1 op
      cases op with
      | set a b =>
          obtain ⟨h1, h2, h3⟩ := hop
          exact symStore_set_pair s1 a b ih h1 h2 h3
      | un x => exact symStore_unlink s1 x ih

/-- C1 witness: the store reached by the safe operation setPair(1,2) from
the empty store is symmetric at the concrete pairing 1-2. -/
theorem pairing_symmetry_reachable_safe_witness :
    get_partner (applyOp ([] : Pairs) (.set 1 2)) 2 = some 1 := by
  have hsafe : SafeOp ([] : Pairs) (.set 1 2) := by
    refine ⟨by decide, ?_, ?_⟩ <;> intro c hc <;>
      simp [get_partner, lookup] at hc
  exact pairing_symmetry_reachable_safe _
    (ReachableSafe.step ReachableSafe.empty hsafe) 1 2 (by decide)

/-- C2 counterexample: in the store where 10 and 20 are mutually paired,
setPair(10,30) does NOT remove the old partner entry of 20: afterwards
getPartner(20) is still 10, not none as the claim states. -/
theorem set_pair_replace_cex :
    get_partner ([(10, 20), (20, 10)] : Pairs) 10 = some 20 ∧
    get_partner ([(10, 20), (20, 10)] : Pairs) 20 = some 10 ∧
    get_partner (set_pair [(10, 20), (20, 10)] 10 30) 20 ≠ none ∧
    get_partner (set_pair [(10, 20), (20, 10)] 10 30) 20 = some 10 := by
  decide

/-- C2 (amended): when a is mutually paired with c and setPair(a,b) is
called with c outside {a, b}, a is repointed to b but the stale reverse
entry of c survives: afterwards getPartner(a) = b and getPartner(c) = a
(not none). -/
theorem set_pair_stale_old_partner (s : Pairs) (a b c : Int)
    (_hac : get_partner s a = some c) (hca : get_partner s c = some a)
    (hcb : c ≠ b) (hcaNe : c ≠ a) :
    get_partner (set_pair s a b) a = some b ∧
    get_partner (set_pair s a b) c = some a := by
  constructor
  · rw [get_partner_set_pair]
    by_cases hab : a = b <;> simp [hab]
  · rw [get_partner_set_pair]
    simp [hcb, hcaNe, hca]

/-- C2 witness: with 1 paired to 2, setPair(1,3) leaves getPartner(1) = 3
and getPartner(2) = 1. -/
theorem set_pair_stale_old_partner_witness :
    get_partner (set_pair [(1, 2), (2, 1)] 1 3) 1 = some 3 ∧
    get_partner (set_pair [(1, 2), (2, 1)] 1 3) 2 = some 1 :=
  set_pair_stale_old_partner [(1, 2), (2, 1)] 1 3 2 (by decide) (by decide)
    (by decide) (by decide)

/-- C3: for every store and distinct a, b, after setPair(a,b) the lookups
give getPartner(a) = b and getPartner(b) = a. -/
theorem set_pair_establishes_pair (s : Pairs) (a b : Int) (h : a ≠ b) :
    get_partner (set_pair s a b) a = some b ∧
    get_partner (set_pair s a b) b = some a := by
  rw [get_partner_set_pair, get_partner_set_pair]
  constructor <;> simp [h]

/-- C3 witness: setPair(1,2) on the empty store pairs 1 and 2 both ways. -/
theorem set_pair_establishes_pair_witness :
    get_partner (set_pair ([] : Pairs) 1 2) 1 = some 2 ∧
    get_partner (set_pair ([] : Pairs) 1 2) 2 = some 1 :=
  set_pair_establishes_pair [] 1 2 (by decide)

/-- C4: unlink(a) with no pairing returns none and leaves the store
unchanged; unlink(a) with recorded partner b returns b and removes both
entries, after which getPartner(a) and getPartner(b) are none; and a second
consecutive unlink(a) always returns none. -/
theorem unlink_postcondition (s : Pairs) (a : Int) :
    (get_partner s a = none → (unlink s a).1 = none ∧ (unlink s a).2 = s) ∧
    (∀ b, get_partner s a = some b →
      (unlink s a).1 = some b ∧
      get_partner (unlink s a).2 a = none ∧
      get_partner (unlink s a).2 b = none) ∧
    (unlink (unlink s a).2 a).1 = none := by
  refine ⟨?_, ?_, ?_⟩
  · intro h
    have h2 : lookup s a = none := h
    simp [unlink, h2]
  · intro b hb
    have h2 : lookup s a = some b := hb
    refine ⟨by simp [unlink, h2], ?_, ?_⟩
    · rw [get_partner_unlink s a b a h2]
      by_cases hab : a = b <;> simp [hab]
    · rw [get_partner_unlink s a b b h2]
      simp
  · cases h2 : lookup s a with
    | none => simp [unlink, h2]
    | some b =>
        have h3 : get_partner (unlink s a).2 a = none := by
          rw [get_partner_unlink s a b a h2]
          by_cases hab : a = b <;> simp [hab]
        have h4 : lookup (unlink s a).2 a = none := h3
        rw [unlink_lookup_none _ _ h4]

/-- C4 witness: unlinking 1 from the store pairing 1 and 2 returns 2 and
clears both directions; unlinking from the empty store returns none and
changes nothing. -/
theorem unlink_postcondition_witness :
    ((unlink ([] : Pairs) 1).1 = none ∧ (unlink ([] : Pairs) 1).2 = []) ∧
    ((unlink [(1, 2), (2, 1)] 1).1 = some 2 ∧
     get_partner (unlink [(1, 2), (2, 1)] 1).2 1 = none ∧
     get_partner (unlink [(1, 2), (2, 1)] 1).2 2 = none) := by
  have hEmpty := unlink_postcondition ([] : Pairs) 1
  have hPaired := unlink_postcondition [(1, 2), (2, 1)] 1
  exact ⟨hEmpty.1 (by decide), hPaired.2.1 2 (by decide)⟩

/-- C5: the link command with a missing argument replies "provide an id"
and leaves the store untouched; with a non-numeric argument it replies
"must be numeric" and leaves the store untouched; with its own id it
replies with a rejection and leaves the store untouched — in all three
cases set_pair is never reached. -/
theorem link_cmd_validation (cid : Int) (s : Pairs) :
    link_cmd cid [] s = (.askId, s) ∧
    (∀ arg, pyToInt arg = none → link_cmd cid [arg] s = (.mustBeNumeric, s)) ∧
    (∀ arg, pyToInt arg = some cid → link_cmd cid [arg] s = (.selfReject, s)) := by
  refine ⟨rfl, ?_, ?_⟩
  · intro arg h
    simp [link_cmd, h]
  · intro arg h
    simp [link_cmd, h]

/-- C5 witness: for caller 7 on the empty store, the argument "abc" is
rejected as non-numeric and the argument "7" as self-linking, both leaving
the store empty. -/
theorem link_cmd_validation_witness :
    link_cmd 7 ["abc"] [] = (.mustBeNumeric, []) ∧
    link_cmd 7 ["7"] [] = (.selfReject, []) := by
  have h := link_cmd_validation 7 []
  exact ⟨h.2.1 "abc" (by decide), h.2.2 "7" (by decide)⟩

/-- C6 counterexample: with partner 0 recorded for sender 5, a private
non-bot message from 5 is not delivered even though getPartner(5) is not
none (Python `if not partner` treats 0 as falsy); and with a genuine
partner 7, a group-chat message from 5 is also not delivered — both falsify
the stated "no delivery iff getPartner(sender) is none". -/
theorem relay_noop_cex :
    relay_messages [(5, 0)] ⟨"private", 5, some false, 42⟩ = .ignore ∧
    get_partner [(5, 0)] 5 ≠ none ∧
    relay_messages [(5, 7)] ⟨"group", 5, some false, 42⟩ = .ignore ∧
    get_partner [(5, 7)] 5 = some 7 := by
  decide

/-- C6 (amended): for a private-chat message not sent by a bot account,
relay performs no delivery iff getPartner(sender) is none or 0 (a falsy
partner id); whenever getPartner(sender) = p with p ≠ 0 it attempts the
copy to p. -/
theorem relay_noop_characterization (s : Pairs) (m : InboundMsg)
    (hp : m.chatType = "private") (hb : m.fromUserIsBot ≠ some true) :
    (relay_messages s m = .ignore ↔
      (get_partner s m.chatId = none ∨ get_partner s m.chatId = some 0)) ∧
    (∀ p, get_partner s m.chatId = some p → p ≠ 0 →
      relay_messages s m = .copyTo p m.chatId m.messageId) := by
  unfold relay_messages
  rw [if_neg (by simp [hp]), if_neg hb]
  cases hg : get_partner s m.chatId with
  | none => simp
  | some p =>
      by_cases hp0 : p = 0
      · subst hp0
        simp
      · simp [hp0]

/-- C6 witness: a private non-bot message from 5, whose partner is 7, is
copied to 7. -/
theorem relay_noop_characterization_witness :
    relay_messages [(5, 7)] ⟨"private", 5, some false, 42⟩ = .copyTo 7 5 42 :=
  (relay_noop_characterization [(5, 7)] ⟨"private", 5, some false, 42⟩
    rfl (by decide)).2 7 (by decide) (by decide)

/-- C7 counterexample: with target 7 and a configured source restriction of
0, a message from chat 5 — which differs from the restriction — is still
delivered to the target (Python `if SOURCE_CHAT_ID and ...` treats 0 as no
restriction), contradicting the stated "nothing is delivered". -/
theorem forward_all_cex :
    (⟨7, some 0⟩ : FwdConfig).source = some 0 ∧ (5 : Int) ≠ 0 ∧
    forward_all ⟨7, some 0⟩ 5 1 = .copyTo 7 5 1 := by
  decide

/-- C7 (amended): if a nonzero source restriction is configured and the
sender differs from it, nothing is delivered; if the sender is the target,
nothing is delivered; otherwise — the restriction being absent, zero (a
falsy value treated as unconfigured), or matching the sender — the message
is copied to the target. -/
theorem forward_all_routing (cfg : FwdConfig) (chatId messageId : Int) :
    (∀ v, cfg.source = some v → v ≠ 0 → chatId ≠ v →
      forward_all cfg chatId messageId = .ignore) ∧
    (chatId = cfg.target → forward_all cfg chatId messageId = .ignore) ∧
    ((cfg.source = none ∨ cfg.source = some 0 ∨ cfg.source = some chatId) →
      chatId ≠ cfg.target →
      forward_all cfg chatId messageId = .copyTo cfg.target chatId messageId) := by
  refine ⟨?_, ?_, ?_⟩
  · intro v hv hv0 hcv
    simp [forward_all, sourceBlocks, hv, hv0, hcv]
  · intro h
    by_cases hbk : sourceBlocks cfg.source chatId <;>
      simp [forward_all, hbk, h]
  · intro hsrc hne
    have hbk : sourceBlocks cfg.source chatId = false := by
      rcases hsrc with h | h | h <;> simp [sourceBlocks, h]
    simp [forward_all, hbk, hne]

/-- C7 witness: with target 7 and source restriction 3, a message from 5 is
not delivered; with no restriction, a message from 5 is copied to 7. -/
theorem forward_all_routing_witness :
    forward_all ⟨7, some 3⟩ 5 1 = .ignore ∧
    forward_all ⟨7, none⟩ 5 1 = .copyTo 7 5 1 :=
  ⟨(forward_all_routing ⟨7, some 3⟩ 5 1).1 3 rfl (by decide) (by decide),
   (forward_all_routing ⟨7, none⟩ 5 1).2.2 (Or.inl rfl) (by decide)⟩

/-- C8: load yields the empty store when the file is absent and when
reading or parsing raises (modelled as `FileState.unreadable`), raising
nothing since it is a total function; and loading the well-formed mapping
pairing 100 with 200 makes getPartner(100) = 200 and getPartner(200) = 100. -/
theorem load_pairs_fail_soft :
    load_pairs .absent = [] ∧
    load_pairs .unreadable = [] ∧
    get_partner (load_pairs (.content [(100, 200), (200, 100)])) 100
      = some 200 ∧
    get_partner (load_pairs (.content [(100, 200), (200, 100)])) 200
      = some 100 := by
  decide

/-- C9: the store-level set_pair does not enforce distinctness: for every
store and identity a, set_pair(a,a) leaves getPartner(a) = a, while the
protocol-level link command is what rejects a self-target before calling
the store. -/
theorem set_pair_self_unguarded (s : Pairs) (a : Int) :
    get_partner (set_pair s a a) a = some a ∧
    (∀ arg, pyToInt arg = some a → link_cmd a [arg] s = (.selfReject, s)) := by
  constructor
  · rw [get_partner_set_pair]
    simp
  · intro arg h
    simp [link_cmd, h]

/-- C9 witness: set_pair(9,9) on the empty store records 9 as its own
partner, while the link command invoked by 9 with argument "9" rejects. -/
theorem set_pair_self_unguarded_witness :
    get_partner (set_pair ([] : Pairs) 9 9) 9 = some 9 ∧
    link_cmd 9 ["9"] [] = (.selfReject, []) := by
  have h := set_pair_self_unguarded [] 9
  exact ⟨h.1, h.2 "9" (by decide)⟩

/-- C10: in an asymmetric state where getPartner(a) = b but getPartner(b) =
c with c ≠ a, unlink(a) returns b and removes the entry of b unconditionally
(destroying its pairing with c), while every entry keyed by an identity
other than a and b is unchanged. -/
theorem unlink_asymmetric_frame (s : Pairs) (a b c : Int)
    (hab : get_partner s a = some b) (_hbc : get_partner s b = some c)
    (_hca : c ≠ a) :
    (unlink s a).1 = some b ∧
    get_partner (unlink s a).2 b = none ∧
    (∀ x, x ≠ a → x ≠ b → get_partner (unlink s a).2 x = get_partner s x) := by
  have h2 : lookup s a = some b := hab
  refine ⟨by simp [unlink, h2], ?_, ?_⟩
  · rw [get_partner_unlink s a b b h2]
    simp
  · intro x hxa hxb
    rw [get_partner_unlink s a b x h2]
    simp [hxa, hxb]

/-- C10 witness: in the asymmetric store where 1 maps to 2, 2 maps to 3 and
5 maps to 9, unlink(1) returns 2, clears the entry of 2, and leaves the
entry of 5 untouched. -/
theorem unlink_asymmetric_frame_witness :
    (unlink [(1, 2), (2, 3), (5, 9)] 1).1 = some 2 ∧
    get_partner (unlink [(1, 2), (2, 3), (5, 9)] 1).2 2 = none ∧
    get_partner (unlink [(1, 2), (2, 3), (5, 9)] 1).2 5
      = get_partner [(1, 2), (2, 3), (5, 9)] 5 := by
  have h := unlink_asymmetric_frame [(1, 2), (2, 3), (5, 9)] 1 2 3
    (by decide) (by decide) (by decide)
  exact ⟨h.1, h.2.1, h.2.2 5 (by decide) (by decide)⟩
